import Mathlib

/-!
Shallow embedding of `app.py` of the safe-streets backend.

Conventions of the embedding:
* JSON numbers (coordinates) are modelled as rationals `Rat`; GeoJSON order is
  kept, so a position list is `[longitude, latitude]` and index 1 is latitude.
* A Python exception is a value of `Exc`; a computation that may raise returns
  `Except Exc α`.  FastAPI turns an escaping `HTTPException` into an HTTP
  response with its status and detail, which is the `Outcome.httpError` case.
* Remote provider methods (`ors_client.pelias_search`, `ors_client.directions`,
  `openai.ChatCompletion.create`, `requests.post`) are modelled as environment
  functions that either return a decoded payload or raise an exception.
* Python `except` clause selection is by class, in source order; the FastAPI
  `HTTPException` is a subclass of `Exception`, so a bare `except Exception`
  clause catches it.  Starlette renders `str(HTTPException)` as
  `"<status>: <detail>"`.
-/

/-- A raised Python exception, as far as `app.py` can distinguish them:
`fastapi.HTTPException` (status code and detail),
`openrouteservice.exceptions.ApiError` (carrying its rendered message),
`IndexError`, `NameError` (carrying the unresolved name), and any other
exception carrying its rendered message. -/
inductive Exc where
  | httpException (status_code : Nat) (detail : String)
  | apiError (message : String)
  | indexError
  | nameError (name : String)
  | other (message : String)
  deriving Repr, DecidableEq

/-- Python `str(e)`.  For `HTTPException`, Starlette renders
`"<status_code>: <detail>"`; an `ApiError` or generic exception renders its
message; `IndexError` renders the standard interpreter text.  (For `NameError`
the interpreter text quotes the name; the quotes are elided here, and no code
path of `app.py` observes that string.) -/
def excStr : Exc → String
  | .httpException status_code detail => toString status_code ++ ": " ++ detail
  | .apiError message => message
  | .indexError => "list index out of range"
  | .nameError name => "name " ++ name ++ " is not defined"
  | .other message => message

/-- What an HTTP client observes from one endpoint call: a successful JSON
body, or an error response with a status code and a `detail` string (the FastAPI
rendering of an escaping `HTTPException`). -/
inductive Outcome (α : Type) where
  | ok (value : α)
  | httpError (status_code : Nat) (detail : String)
  deriving Repr, DecidableEq

/-- Python list indexing `xs[i]` for a non-negative index: raises `IndexError`
when `i` is out of range. -/
def pyIdx {α : Type} (xs : List α) (i : Nat) : Except Exc α :=
  match xs.get? i with
  | some x => .ok x
  | none => .error .indexError

/-- Whether `pat` starts the character list `s` (helper for substring search). -/
def charsStartWith : List Char → List Char → Bool
  | [], _ => true
  | _ :: _, [] => false
  | a :: as, b :: bs => a == b && charsStartWith as bs

/-- Whether `pat` occurs as a contiguous run inside `s`. -/
def charsContain (pat : List Char) : List Char → Bool
  | [] => pat.isEmpty
  | b :: bs => charsStartWith pat (b :: bs) || charsContain pat bs

/-- Python substring test `pat in s`. -/
def pyIn (pat s : String) : Bool :=
  charsContain pat.data s.data

/-- Result of invoking a remote provider method: either a decoded payload or a
raised exception. -/
inductive ProviderCall (α : Type) where
  | ok (payload : α)
  | raises (e : Exc)
  deriving Repr, DecidableEq

/-- `geometry` object of a GeoJSON feature returned by `pelias_search`:
`coordinates` is one position, `[longitude, latitude]`. -/
structure Geometry where
  coordinates : List Rat
  deriving Repr, DecidableEq

/-- One feature of a `pelias_search` response. -/
structure Feature where
  geometry : Geometry
  deriving Repr, DecidableEq

/-- A `pelias_search` response body: its `features` list. -/
structure SearchResponse where
  features : List Feature
  deriving Repr, DecidableEq

/-- `geometry` of a route feature returned by `directions` in geojson format:
`coordinates` is the ordered list of positions of the path. -/
structure RouteGeometry where
  coordinates : List (List Rat)
  deriving Repr, DecidableEq

/-- One route feature of a `directions` response. -/
structure RouteFeature where
  geometry : RouteGeometry
  deriving Repr, DecidableEq

/-- A `directions` response body in geojson format: its `features` list. -/
structure DirectionsResponse where
  features : List RouteFeature
  deriving Repr, DecidableEq

/-- Behaviour of the `ors_client` used by `get_safe_route`:
`pelias_search` by free-text address, and `directions` by coordinate pair,
profile and output format. -/
structure OrsEnv where
  pelias_search : String → ProviderCall SearchResponse
  directions : List (List Rat) → String → String → ProviderCall DirectionsResponse

/-- Request body of `POST /get-safe-route`. -/
structure RouteRequest where
  origin : String
  destination : String
  deriving Repr, DecidableEq

/-- The `alerts` object assembled by `get_safe_route`, and the body of
`GET /alerts`. -/
structure AlertSummary where
  police_stations : Nat
  public_facilities : Nat
  crowd_density : String
  deriving Repr, DecidableEq

/-- `origin` / `destination` object of a successful `get_safe_route` body. -/
structure EndpointInfo where
  address : String
  coordinates : List Rat
  deriving Repr, DecidableEq

/-- Successful response body of `POST /get-safe-route`. -/
structure RouteResponse where
  origin : EndpointInfo
  destination : EndpointInfo
  route : List (List Rat)
  alerts : AlertSummary
  deriving Repr, DecidableEq

/-- The inner `try` around the `ors_client.directions` call (app.py lines
63-79): an `ApiError` whose message contains the no-routable-point text is
turned into an `HTTPException(404, ...)`, any other `ApiError` into an
`HTTPException(500, "Error generating route: ...")`; both propagate out of the
inner handler (into the enclosing `try`), and non-`ApiError` exceptions pass
through unhandled. -/
def directions_try (env : OrsEnv) (origin_coords destination_coords : List Rat) :
    Except Exc DirectionsResponse :=
  match env.directions [origin_coords, destination_coords] "driving-car" "geojson" with
  | .ok routes => .ok routes
  | .raises (.apiError error_message) =>
    if pyIn "Could not find routable point within a radius" error_message then
      .error (.httpException 404
        "Could not find a route to the specified destination. It may be too remote for routing.")
    else
      .error (.httpException 500 ("Error generating route: " ++ error_message))
  | .raises e => .error e

/-- The body of the outer `try` of `get_safe_route` (app.py lines 47-101),
ending either in the returned response dict or in a raised exception. -/
def get_safe_route_body (env : OrsEnv) (route_request : RouteRequest) :
    Except Exc RouteResponse :=
  match env.pelias_search route_request.origin with
  | .raises e => .error e
  | .ok origin_search =>
    match env.pelias_search route_request.destination with
    | .raises e => .error e
    | .ok destination_search =>
      if origin_search.features.isEmpty || destination_search.features.isEmpty then
        .error (.httpException 404
          "Could not find valid coordinates for the specified addresses.")
      else
        match pyIdx origin_search.features 0 with
        | .error e => .error e
        | .ok origin_feature =>
          match pyIdx destination_search.features 0 with
          | .error e => .error e
          | .ok destination_feature =>
            let origin_coords := origin_feature.geometry.coordinates
            let destination_coords := destination_feature.geometry.coordinates
            match directions_try env origin_coords destination_coords with
            | .error e => .error e
            | .ok routes =>
              if routes.features.isEmpty then
                .error (.httpException 404
                  "No route found between the specified locations.")
              else
                match pyIdx routes.features 0 with
                | .error e => .error e
                | .ok route_feature =>
                  let route_coords := route_feature.geometry.coordinates
                  match pyIdx origin_coords 1 with
                  | .error e => .error e
                  | .ok origin_lat =>
                    match pyIdx destination_coords 1 with
                    | .error e => .error e
                    | .ok destination_lat =>
                      match pyIdx origin_coords 0 with
                      | .error e => .error e
                      | .ok origin_lon =>
                        match pyIdx destination_coords 0 with
                        | .error e => .error e
                        | .ok destination_lon =>
                          .ok
                            { origin :=
                                { address := route_request.origin
                                  coordinates := origin_coords }
                              destination :=
                                { address := route_request.destination
                                  coordinates := destination_coords }
                              route := route_coords
                              alerts :=
                                { police_stations :=
                                    if origin_lat > destination_lat then 3 else 2
                                  public_facilities :=
                                    if origin_lon < destination_lon then 5 else 3
                                  crowd_density :=
                                    if origin_lat < destination_lat then "High"
                                    else "Medium" } }

/-- `POST /get-safe-route` (app.py lines 43-108).  The outer `except` chain is
tried in source order: `openrouteservice.exceptions.ApiError`, then
`IndexError`, then `Exception`.  The last clause also catches any
`HTTPException` raised inside the `try` block (it subclasses `Exception`) and
re-wraps it as a 500; the `raise HTTPException` statements inside the handlers
themselves are outside the `try` and escape to FastAPI. -/
def get_safe_route (env : OrsEnv) (route_request : RouteRequest) :
    Outcome RouteResponse :=
  match get_safe_route_body env route_request with
  | .ok response => .ok response
  | .error (.apiError message) =>
    .httpError 500 ("Error generating route: " ++ message)
  | .error .indexError =>
    .httpError 404 "Could not find valid coordinates for the specified addresses."
  | .error e =>
    .httpError 500 ("Unexpected error occurred: " ++ excStr e)

/-- Request body of `POST /ask-ai`. -/
structure QueryRequest where
  question : String
  deriving Repr, DecidableEq

/-- One message handed to the chat model. -/
structure ChatMessage where
  role : String
  content : String
  deriving Repr, DecidableEq

/-- `message` object of one chat completion choice. -/
structure ChatChoiceMessage where
  content : String
  deriving Repr, DecidableEq

/-- One choice of a chat completion response. -/
structure ChatChoice where
  message : ChatChoiceMessage
  deriving Repr, DecidableEq

/-- A chat completion response: its `choices` list. -/
structure ChatResponse where
  choices : List ChatChoice
  deriving Repr, DecidableEq

/-- Behaviour of the `openai` module as used by `ask_ai`: the module-level
`api_key` (as set from `os.getenv`, so `none` when the variable is unset; the
empty string is likewise falsy for the `if not openai.api_key` check) and
`ChatCompletion.create` taking model, messages, max_tokens, temperature. -/
structure OpenAIEnv where
  api_key : Option String
  ChatCompletion_create :
    String → List ChatMessage → Nat → Rat → ProviderCall ChatResponse

/-- Python truthiness of `openai.api_key`: falsy when `None` or empty. -/
def apiKeyTruthy : Option String → Bool
  | none => false
  | some s => !(s == "")

/-- Successful response body of `POST /ask-ai`. -/
structure AskAIResponse where
  response : String
  deriving Repr, DecidableEq

/-- The body of the `try` of `ask_ai` (app.py lines 115-135).  The persona
text is that of the source, with its one apostrophe elided; no claim observes it. -/
def ask_ai_body (env : OpenAIEnv) (query_request : QueryRequest) :
    Except Exc AskAIResponse :=
  if !apiKeyTruthy env.api_key then
    .error (.httpException 500 "OpenAI API key is not set.")
  else
    let messages : List ChatMessage :=
      [{ role := "system"
         content := "You are a womens safety advisor with expertise in urban navigation, personal security, and emergency assistance." }
       , { role := "user", content := query_request.question }]
    match env.ChatCompletion_create "gpt-4o" messages 150 (0.7 : Rat) with
    | .raises e => .error e
    | .ok response =>
      match pyIdx response.choices 0 with
      | .error e => .error e
      | .ok choice => .ok { response := choice.message.content.trim }

/-- `POST /ask-ai` (app.py lines 112-139).  The single `except Exception`
clause catches every exception raised inside the `try`, including the
`HTTPException(500, "OpenAI API key is not set.")`, and re-wraps it. -/
def ask_ai (env : OpenAIEnv) (query_request : QueryRequest) :
    Outcome AskAIResponse :=
  match ask_ai_body env query_request with
  | .ok response => .ok response
  | .error e =>
    .httpError 500 ("Unexpected error with AI response: " ++ excStr e)

/-- Names bound at module level of `app.py`: the `import` / `from ... import`
bindings of lines 1-7 and the module-level assignments and definitions.
`requests` is not among them. -/
def moduleGlobalNames : List String :=
  ["os", "FastAPI", "HTTPException", "Query", "BaseModel", "openai",
   "openrouteservice", "load_dotenv", "CORSMiddleware", "ors_key",
   "ors_client", "app", "origins", "RouteRequest", "QueryRequest",
   "read_root", "get_safe_route", "ask_ai", "get_safety_score",
   "get_real_time_alerts"]

/-- A JSON scalar in the `score` field of the body sent by the scoring provider. -/
inductive ScoreValue where
  | num (value : Rat)
  | str (value : String)
  deriving Repr, DecidableEq

/-- What `requests.post` to the scoring endpoint would yield: the HTTP status
code and the optional `score` field of the decoded JSON body. -/
structure InferellResponse where
  status_code : Nat
  score : Option ScoreValue
  deriving Repr, DecidableEq

/-- Behaviour of the `requests` library as `get_safety_score` would use it:
`post` takes the URL and the JSON payload `{route: ...}` (the bearer header is
elided: it does not affect control flow). -/
structure RequestsEnv where
  post : String → List (List Rat) → ProviderCall InferellResponse

/-- The body of the `try` of `get_safety_score` (app.py lines 147-163).  The
name `requests` on line 152 is resolved against the globals of the module before
anything is called; it is absent, so evaluating the call expression raises
`NameError` and the provider branch is never reached. -/
def get_safety_score_body (env : RequestsEnv) (route : List (List Rat)) :
    Except Exc ScoreValue :=
  if "requests" ∈ moduleGlobalNames then
    match env.post "https://api.inferell.ai/v1/safety_score" route with
    | .raises e => .error e
    | .ok inferell_response =>
      if inferell_response.status_code == 200 then
        .ok (inferell_response.score.getD (.str "N/A"))
      else
        .ok (.str "Error fetching safety score")
  else
    .error (.nameError "requests")

/-- `POST /get-safety-score` (app.py lines 142-166).  The single
`except Exception` clause maps every exception (here: the `NameError`) to an
`HTTPException(500, "Could not fetch safety score.")`. -/
def get_safety_score (env : RequestsEnv) (route : List (List Rat)) :
    Outcome ScoreValue :=
  match get_safety_score_body env route with
  | .ok value => .ok value
  | .error _ => .httpError 500 "Could not fetch safety score."

/-- `GET /alerts` (app.py lines 169-176): returns a fixed dict; the handler
takes no input and has no branch, so it is a constant. -/
def get_real_time_alerts : AlertSummary :=
  { police_stations := 2
    public_facilities := 5
    crowd_density := "Medium" }

lemma pyIdx_ok_iff {α : Type} (xs : List α) (i : Nat) (x : α) :
    pyIdx xs i = .ok x ↔ xs.get? i = some x := by
  unfold pyIdx
  cases h : xs.get? i <;> simp_all

lemma get_safe_route_ok_iff (env : OrsEnv) (req : RouteRequest) (r : RouteResponse) :
    get_safe_route env req = .ok r ↔ get_safe_route_body env req = .ok r := by
  unfold get_safe_route
  cases h : get_safe_route_body env req with
  | ok v => simp
  | error e => cases e <;> simp

/-- Full inversion of a successful `get_safe_route_body` run: the provider
interactions it must have had, and the exact response it assembled. -/
lemma get_safe_route_body_ok_inv (env : OrsEnv) (req : RouteRequest) (r : RouteResponse)
    (hb : get_safe_route_body env req = .ok r) :
    ∃ origin_search destination_search origin_feature destination_feature
      routes route_feature origin_lat destination_lat origin_lon destination_lon,
      env.pelias_search req.origin = .ok origin_search ∧
      env.pelias_search req.destination = .ok destination_search ∧
      origin_search.features.get? 0 = some origin_feature ∧
      destination_search.features.get? 0 = some destination_feature ∧
      directions_try env origin_feature.geometry.coordinates
        destination_feature.geometry.coordinates = .ok routes ∧
      routes.features.get? 0 = some route_feature ∧
      origin_feature.geometry.coordinates.get? 1 = some origin_lat ∧
      destination_feature.geometry.coordinates.get? 1 = some destination_lat ∧
      origin_feature.geometry.coordinates.get? 0 = some origin_lon ∧
      destination_feature.geometry.coordinates.get? 0 = some destination_lon ∧
      r = { origin := { address := req.origin
                        coordinates := origin_feature.geometry.coordinates }
            destination := { address := req.destination
                             coordinates := destination_feature.geometry.coordinates }
            route := route_feature.geometry.coordinates
            alerts := { police_stations := if origin_lat > destination_lat then 3 else 2
                        public_facilities := if origin_lon < destination_lon then 5 else 3
                        crowd_density := if origin_lat < destination_lat then "High"
                                         else "Medium" } } := by
  unfold get_safe_route_body at hb
  cases hos : env.pelias_search req.origin with
  | raises e => simp [hos] at hb
  | ok origin_search =>
  cases hds : env.pelias_search req.destination with
  | raises e => simp [hos, hds] at hb
  | ok destination_search =>
  simp only [hos, hds] at hb
  cases hemp : origin_search.features.isEmpty || destination_search.features.isEmpty with
  | true => simp [hemp] at hb
  | false =>
  simp only [hemp, Bool.false_eq_true, if_false] at hb
  cases hof : pyIdx origin_search.features 0 with
  | error e => simp [hof] at hb
  | ok origin_feature =>
  cases hdf : pyIdx destination_search.features 0 with
  | error e => simp [hof, hdf] at hb
  | ok destination_feature =>
  simp only [hof, hdf] at hb
  cases hdir : directions_try env origin_feature.geometry.coordinates
      destination_feature.geometry.coordinates with
  | error e => simp [hdir] at hb
  | ok routes =>
  simp only [hdir] at hb
  cases hremp : routes.features.isEmpty with
  | true => simp [hremp] at hb
  | false =>
  simp only [hremp, Bool.false_eq_true, if_false] at hb
  cases hrf : pyIdx routes.features 0 with
  | error e => simp [hrf] at hb
  | ok route_feature =>
  cases holat : pyIdx origin_feature.geometry.coordinates 1 with
  | error e => simp [hrf, holat] at hb
  | ok origin_lat =>
  cases hdlat : pyIdx destination_feature.geometry.coordinates 1 with
  | error e => simp [hrf, holat, hdlat] at hb
  | ok destination_lat =>
  cases holon : pyIdx origin_feature.geometry.coordinates 0 with
  | error e => simp [hrf, holat, hdlat, holon] at hb
  | ok origin_lon =>
  cases hdlon : pyIdx destination_feature.geometry.coordinates 0 with
  | error e => simp [hrf, holat, hdlat, holon, hdlon] at hb
  | ok destination_lon =>
  simp only [hrf, holat, hdlat, holon, hdlon, Except.ok.injEq] at hb
  exact ⟨origin_search, destination_search, origin_feature, destination_feature,
    routes, route_feature, origin_lat, destination_lat, origin_lon, destination_lon,
    rfl, rfl, (pyIdx_ok_iff _ _ _).mp hof, (pyIdx_ok_iff _ _ _).mp hdf, hdir,
    (pyIdx_ok_iff _ _ _).mp hrf, (pyIdx_ok_iff _ _ _).mp holat,
    (pyIdx_ok_iff _ _ _).mp hdlat, (pyIdx_ok_iff _ _ _).mp holon,
    (pyIdx_ok_iff _ _ _).mp hdlon, hb.symm⟩

/-! Concrete provider behaviours used to exercise the endpoints. The example
geocoder mirrors the orderings of the worked example of the spec (origin west
and south of the destination), with integer-valued coordinates. -/

def exampleOriginFeature : Feature :=
  { geometry := { coordinates := [-74, 40] } }

def exampleDestinationFeature : Feature :=
  { geometry := { coordinates := [-73, 41] } }

def exampleRouteFeature : RouteFeature :=
  { geometry := { coordinates := [[-74, 40], [-73, 41]] } }

/-- A second route feature, present so that runs against `exampleEnv` show
that features after the first are ignored. -/
def exampleAltRouteFeature : RouteFeature :=
  { geometry := { coordinates := [[-74, 40], [-75, 45], [-73, 41]] } }

def exampleEnv : OrsEnv :=
  { pelias_search := fun address =>
      if address == "Times Square, NYC" then
        .ok { features := [exampleOriginFeature] }
      else
        .ok { features := [exampleDestinationFeature] }
    directions := fun _ _ _ =>
      .ok { features := [exampleRouteFeature, exampleAltRouteFeature] } }

def exampleRequest : RouteRequest :=
  { origin := "Times Square, NYC", destination := "Central Park, NYC" }

def exampleResponse : RouteResponse :=
  { origin := { address := "Times Square, NYC", coordinates := [-74, 40] }
    destination := { address := "Central Park, NYC", coordinates := [-73, 41] }
    route := [[-74, 40], [-73, 41]]
    alerts := { police_stations := 2, public_facilities := 5, crowd_density := "High" } }

/-- A geocoder that finds nothing: the feature list is empty for every query. -/
def emptyGeocodeEnv : OrsEnv :=
  { pelias_search := fun _ => .ok { features := [] }
    directions := fun _ _ _ => .ok { features := [] } }

/-- A geocoder whose first feature carries an empty coordinate list, so that
indexing position 1 of the coordinates raises `IndexError`. -/
def shortCoordsEnv : OrsEnv :=
  { pelias_search := fun _ => .ok { features := [{ geometry := { coordinates := [] } }] }
    directions := fun _ _ _ => .ok { features := [exampleRouteFeature] } }

/-- A provider whose geocoding call raises a non-`ApiError` exception. -/
def raisingEnv : OrsEnv :=
  { pelias_search := fun _ => .raises (.other "boom")
    directions := fun _ _ _ => .ok { features := [] } }

/-- Routing fails with the no-routable-point-within-radius `ApiError`. -/
def radiusErrorEnv : OrsEnv :=
  { pelias_search := fun address =>
      if address == "Times Square, NYC" then
        .ok { features := [exampleOriginFeature] }
      else
        .ok { features := [exampleDestinationFeature] }
    directions := fun _ _ _ =>
      .raises (.apiError
        "404 (Could not find routable point within a radius of 350.0 meters)") }

/-- Routing fails with some other `ApiError`. -/
def otherErrorEnv : OrsEnv :=
  { pelias_search := fun address =>
      if address == "Times Square, NYC" then
        .ok { features := [exampleOriginFeature] }
      else
        .ok { features := [exampleDestinationFeature] }
    directions := fun _ _ _ => .raises (.apiError "503 (Service unavailable)") }

/-- A scoring provider that, were it ever reached, would answer HTTP 503. -/
def inferell503Env : RequestsEnv :=
  { post := fun _ _ => .ok { status_code := 503, score := none } }

/-- C1: for every successful `get_safe_route` call, the `alerts` object is
derived solely from the coordinates of the first geocoded features of origin and
destination: `police_stations` is 3 when origin latitude > destination
latitude and 2 otherwise, `public_facilities` is 5 when origin longitude <
destination longitude and 3 otherwise, `crowd_density` is "High" when origin
latitude < destination latitude and "Medium" otherwise; every tie resolves to
the else branch (equal latitudes give `police_stations` 2 and `crowd_density`
"Medium", equal longitudes give `public_facilities` 3). -/
theorem C1_alerts_derivation (env : OrsEnv) (req : RouteRequest) (r : RouteResponse)
    (h : get_safe_route env req = .ok r) :
    ∃ origin_search destination_search origin_feature destination_feature
      origin_lat destination_lat origin_lon destination_lon,
      env.pelias_search req.origin = .ok origin_search ∧
      env.pelias_search req.destination = .ok destination_search ∧
      origin_search.features.get? 0 = some origin_feature ∧
      destination_search.features.get? 0 = some destination_feature ∧
      origin_feature.geometry.coordinates.get? 1 = some origin_lat ∧
      destination_feature.geometry.coordinates.get? 1 = some destination_lat ∧
      origin_feature.geometry.coordinates.get? 0 = some origin_lon ∧
      destination_feature.geometry.coordinates.get? 0 = some destination_lon ∧
      r.alerts.police_stations = (if origin_lat > destination_lat then 3 else 2) ∧
      r.alerts.public_facilities = (if origin_lon < destination_lon then 5 else 3) ∧
      r.alerts.crowd_density = (if origin_lat < destination_lat then "High" else "Medium") ∧
      (origin_lat = destination_lat →
        r.alerts.police_stations = 2 ∧ r.alerts.crowd_density = "Medium") ∧
      (origin_lon = destination_lon → r.alerts.public_facilities = 3) := by
  obtain ⟨os, ds, ofe, dfe, routes, rfe, olat, dlat, olon, dlon,
    h1, h2, h3, h4, h5, h6, h7, h8, h9, h10, hr⟩ :=
    get_safe_route_body_ok_inv env req r ((get_safe_route_ok_iff env req r).mp h)
  subst hr
  refine ⟨os, ds, ofe, dfe, olat, dlat, olon, dlon, h1, h2, h3, h4, h7, h8, h9, h10,
    rfl, rfl, rfl, ?_, ?_⟩
  · intro hEq
    subst hEq
    simp
  · intro hEq
    subst hEq
    simp

theorem C1_alerts_derivation_witness :
    get_safe_route exampleEnv exampleRequest = .ok exampleResponse ∧
    (∃ origin_search destination_search origin_feature destination_feature
      origin_lat destination_lat origin_lon destination_lon,
      exampleEnv.pelias_search exampleRequest.origin = .ok origin_search ∧
      exampleEnv.pelias_search exampleRequest.destination = .ok destination_search ∧
      origin_search.features.get? 0 = some origin_feature ∧
      destination_search.features.get? 0 = some destination_feature ∧
      origin_feature.geometry.coordinates.get? 1 = some origin_lat ∧
      destination_feature.geometry.coordinates.get? 1 = some destination_lat ∧
      origin_feature.geometry.coordinates.get? 0 = some origin_lon ∧
      destination_feature.geometry.coordinates.get? 0 = some destination_lon ∧
      exampleResponse.alerts.police_stations =
        (if origin_lat > destination_lat then 3 else 2) ∧
      exampleResponse.alerts.public_facilities =
        (if origin_lon < destination_lon then 5 else 3) ∧
      exampleResponse.alerts.crowd_density =
        (if origin_lat < destination_lat then "High" else "Medium") ∧
      (origin_lat = destination_lat →
        exampleResponse.alerts.police_stations = 2 ∧
        exampleResponse.alerts.crowd_density = "Medium") ∧
      (origin_lon = destination_lon →
        exampleResponse.alerts.public_facilities = 3)) :=
  ⟨by decide, C1_alerts_derivation exampleEnv exampleRequest exampleResponse (by decide)⟩

/-- C2: the claim states that an empty geocoding feature list for origin or
destination yields HTTP 404 with detail "Could not find valid coordinates for
the specified addresses.".  The code instead yields HTTP 500: the
`HTTPException(404, ...)` raised at app.py line 53 is caught by the blanket
`except Exception` of line 106 and re-wrapped as
`HTTPException(500, "Unexpected error occurred: ...")`. -/
theorem C2_empty_geocode_becomes_500 :
    get_safe_route emptyGeocodeEnv
        { origin := "Nowhere Street", destination := "Nowhere Avenue" } =
      .httpError 500
        "Unexpected error occurred: 404: Could not find valid coordinates for the specified addresses." ∧
    get_safe_route emptyGeocodeEnv
        { origin := "Nowhere Street", destination := "Nowhere Avenue" } ≠
      .httpError 404 "Could not find valid coordinates for the specified addresses." := by
  decide

/-- C3: the claim states the soft-failure policy of `get_safety_score` (non-200
provider answer gives a 200 body carrying "Error fetching safety score", and a
200 answer without a score field gives "N/A").  The code never reaches those
branches: `requests` is unresolved at line 152, so even against a provider
that would answer 503 the endpoint responds 500 "Could not fetch safety
score.". -/
theorem C3_soft_failure_unreachable :
    get_safety_score inferell503Env [] =
      .httpError 500 "Could not fetch safety score." ∧
    get_safety_score inferell503Env [] ≠ .ok (.str "Error fetching safety score") := by
  decide

/-- C4: the claim states that a routing `ApiError` whose message contains the
no-routable-point-within-radius text yields HTTP 404 with the remote-
destination detail, and any other routing `ApiError` yields HTTP 500 with
detail "Error generating route: <message>".  The code instead yields HTTP 500
in both cases with re-wrapped details: the `HTTPException`s raised by the
inner handler (app.py lines 73-79) are caught again by the blanket
`except Exception` of line 106. -/
theorem C4_routing_error_becomes_500 :
    (get_safe_route radiusErrorEnv exampleRequest =
      .httpError 500
        "Unexpected error occurred: 404: Could not find a route to the specified destination. It may be too remote for routing." ∧
     get_safe_route radiusErrorEnv exampleRequest ≠
      .httpError 404
        "Could not find a route to the specified destination. It may be too remote for routing.") ∧
    get_safe_route otherErrorEnv exampleRequest =
      .httpError 500
        "Unexpected error occurred: 500: Error generating route: 503 (Service unavailable)" := by
  decide

/-- C5: when no language-model credential is configured (`openai.api_key` is
unset), `ask_ai` fails before any call to the chat provider: the result is an
error for every possible `ChatCompletion.create` behaviour `create`, and
`create` does not occur in the result, so the provider is never invoked.  (The
detail is the configuration message re-wrapped by the handler of app.py line
136-139, which also catches the `HTTPException` of line 117.) -/
theorem C5_ask_ai_missing_key_no_provider_call
    (create : String → List ChatMessage → Nat → Rat → ProviderCall ChatResponse)
    (question : String) :
    ask_ai { api_key := none, ChatCompletion_create := create }
        { question := question } =
      .httpError 500 "Unexpected error with AI response: 500: OpenAI API key is not set." :=
  rfl

/-- C6: `get_real_time_alerts` takes no input, has no branch, and always
returns the fixed literal payload. -/
theorem C6_real_time_alerts_constant :
    get_real_time_alerts =
      { police_stations := 2, public_facilities := 5, crowd_density := "Medium" } :=
  rfl

/-- C7: for every successful `get_safe_route` call, the returned `route` field
is exactly the geometry coordinate sequence of the first feature of the
response of the routing provider; the tail `rest` of the feature list is
universally quantified and absent from the conclusion, so features beyond the
first have no effect. -/
theorem C7_route_first_feature (env : OrsEnv) (req : RouteRequest)
    (origin_search destination_search : SearchResponse)
    (origin_feature destination_feature : Feature)
    (route_feature : RouteFeature) (rest : List RouteFeature) (r : RouteResponse)
    (hos : env.pelias_search req.origin = .ok origin_search)
    (hds : env.pelias_search req.destination = .ok destination_search)
    (hof : origin_search.features.get? 0 = some origin_feature)
    (hdf : destination_search.features.get? 0 = some destination_feature)
    (hdir : env.directions
        [origin_feature.geometry.coordinates, destination_feature.geometry.coordinates]
        "driving-car" "geojson" = .ok { features := route_feature :: rest })
    (h : get_safe_route env req = .ok r) :
    r.route = route_feature.geometry.coordinates := by
  obtain ⟨os, ds, ofe, dfe, routes, rfe, olat, dlat, olon, dlon,
    h1, h2, h3, h4, h5, h6, h7, h8, h9, h10, hr⟩ :=
    get_safe_route_body_ok_inv env req r ((get_safe_route_ok_iff env req r).mp h)
  rw [hos] at h1
  injection h1 with h1
  subst h1
  rw [hds] at h2
  injection h2 with h2
  subst h2
  rw [hof] at h3
  injection h3 with h3
  subst h3
  rw [hdf] at h4
  injection h4 with h4
  subst h4
  unfold directions_try at h5
  rw [hdir] at h5
  injection h5 with h5
  subst h5
  simp only [List.get?] at h6
  injection h6 with h6
  subst h6
  subst hr
  rfl

theorem C7_route_first_feature_witness :
    exampleEnv.pelias_search exampleRequest.origin =
      .ok { features := [exampleOriginFeature] } ∧
    exampleEnv.pelias_search exampleRequest.destination =
      .ok { features := [exampleDestinationFeature] } ∧
    exampleEnv.directions
        [exampleOriginFeature.geometry.coordinates,
         exampleDestinationFeature.geometry.coordinates] "driving-car" "geojson" =
      .ok { features := exampleRouteFeature :: [exampleAltRouteFeature] } ∧
    get_safe_route exampleEnv exampleRequest = .ok exampleResponse ∧
    exampleResponse.route = exampleRouteFeature.geometry.coordinates :=
  ⟨by decide, by decide, by decide, by decide,
   C7_route_first_feature exampleEnv exampleRequest
     { features := [exampleOriginFeature] } { features := [exampleDestinationFeature] }
     exampleOriginFeature exampleDestinationFeature
     exampleRouteFeature [exampleAltRouteFeature] exampleResponse
     (by decide) (by decide) (by decide) (by decide) (by decide) (by decide)⟩

/-- C8: an `IndexError` raised while processing provider payloads inside the
`try` of `get_safe_route` is mapped to the same 404 outcome as the
empty-geocoding branch intends, with detail "Could not find valid coordinates
for the specified addresses." (the `raise` of the `except IndexError` clause
sits outside the `try`, so it escapes to FastAPI), while any other uncaught
exception is mapped to a generic 500 carrying the underlying message. -/
theorem C8_index_error_handler (env : OrsEnv) (req : RouteRequest) :
    (get_safe_route_body env req = .error .indexError →
      get_safe_route env req =
        .httpError 404 "Could not find valid coordinates for the specified addresses.") ∧
    (∀ message, get_safe_route_body env req = .error (.other message) →
      get_safe_route env req =
        .httpError 500 ("Unexpected error occurred: " ++ message)) := by
  constructor
  · intro h
    unfold get_safe_route
    rw [h]
  · intro message h
    unfold get_safe_route
    rw [h]
    rfl

theorem C8_index_error_handler_witness :
    get_safe_route_body shortCoordsEnv exampleRequest = .error .indexError ∧
    get_safe_route shortCoordsEnv exampleRequest =
      .httpError 404 "Could not find valid coordinates for the specified addresses." ∧
    get_safe_route_body raisingEnv exampleRequest = .error (.other "boom") ∧
    get_safe_route raisingEnv exampleRequest =
      .httpError 500 "Unexpected error occurred: boom" :=
  ⟨rfl,
   (C8_index_error_handler shortCoordsEnv exampleRequest).1 rfl,
   rfl,
   (C8_index_error_handler raisingEnv exampleRequest).2 "boom" rfl⟩

/-- C9: `get_safety_score` never performs a network call: the name `requests`
is not among the globals of the module, so the call expression of app.py line 152
raises `NameError`, the catch-all maps it to HTTP 500 "Could not fetch safety
score.", and this is the response for every input and every conceivable
provider behaviour (`env` does not occur in the right-hand side). -/
theorem C9_safety_score_always_500 (env : RequestsEnv) (route : List (List Rat)) :
    get_safety_score env route = .httpError 500 "Could not fetch safety score." := by
  unfold get_safety_score get_safety_score_body
  rw [if_neg (by decide : ¬ ("requests" ∈ moduleGlobalNames))]

/-- C10: for every successful `get_safe_route` call, the `origin.address` and
`destination.address` fields of the response equal the origin and destination
strings of the request, character for character: the free-text input is echoed
back, not replaced by the geocoded feature. -/
theorem C10_address_echo (env : OrsEnv) (req : RouteRequest) (r : RouteResponse)
    (h : get_safe_route env req = .ok r) :
    r.origin.address = req.origin ∧ r.destination.address = req.destination := by
  obtain ⟨os, ds, ofe, dfe, routes, rfe, olat, dlat, olon, dlon,
    h1, h2, h3, h4, h5, h6, h7, h8, h9, h10, hr⟩ :=
    get_safe_route_body_ok_inv env req r ((get_safe_route_ok_iff env req r).mp h)
  subst hr
  exact ⟨rfl, rfl⟩

theorem C10_address_echo_witness :
    get_safe_route exampleEnv exampleRequest = .ok exampleResponse ∧
    (exampleResponse.origin.address = exampleRequest.origin ∧
     exampleResponse.destination.address = exampleRequest.destination) :=
  ⟨by decide, C10_address_echo exampleEnv exampleRequest exampleResponse (by decide)⟩
